import Mathlib

/-!
Verification of the macaron analyzer sources against their specification.

The development shallowly embeds the Python sources:

* `src/macaron/slsa_analyzer/checks/provenance_available_check.py`
* `src/macaron/slsa_analyzer/checks/build_as_code_check.py`
* `src/macaron/policy_engine/__main__.py`
* `src/macaron/slsa_analyzer/specs/package_registry_spec.py`

External collaborators (registry/CI HTTP clients, the witness-provenance
helpers, the ProbLog evaluator, the Datalog policy evaluator) are modelled as
oracle fields or, where the spec fixes their behaviour, from the spec's words;
each such definition says so in its doc comment.
-/

set_option maxHeartbeats 1000000

namespace Macaron

/-- Result status of a check (the `CheckResultType` enum used by both checks). -/
inductive CheckResultType where
  | PASSED
  | FAILED
  | SKIPPED
  | DISABLED
  | UNKNOWN
  deriving DecidableEq, Repr

/-- Provenance payload as observed by `provenance_available_check.py`.
`predicateType` is the declared predicate type inspected by
`is_witness_provenance_payload`, and `repoUrl` is the embedded
source-repository URL. Modelled from the spec: the witness helper module
(`extract_repo_url`, `is_witness_provenance_payload`) is not among the
analyzed sources; per the spec it extracts the embedded source-repository URL
and matches the declared predicate type against a configured allow-list. -/
structure ProvenancePayload where
  predicateType : String
  repoUrl : String
  deriving DecidableEq, Repr

/-- A provenance asset reference (name, origin URL, declared size in bytes),
together with the oracle outcomes of the network collaborators used on it:
`downloadOk` is the boolean result of `download(...)` / `download_asset(...)`,
and `payload` is the result of loading the downloaded file (`none` models a
load/parse error, which the source logs and skips). -/
structure Asset where
  name : String
  url : String
  size_in_bytes : Nat
  downloadOk : Bool
  payload : Option ProvenancePayload
  deriving DecidableEq, Repr

/-- A provenance payload proven (by `obtain_witness_provenances`) to belong to
the analyzed repository, together with its asset. -/
structure WitnessProvenance where
  asset : Asset
  payload : ProvenancePayload
  deriving DecidableEq, Repr

/-- Embedding of `ProvenanceAvailableCheck.obtain_witness_provenances`
(provenance_available_check.py lines 202-259). `predicate_types` is the
witness verifier config allow-list. For each asset: a failed download is
skipped, a payload load error is skipped, a payload whose predicate type is
not in the allow-list is skipped, and then the source executes
`if not repo_url != repo_remote_path: continue` (line 249), which skips the
payload exactly when the extracted URL equals the analyzed repository's
remote URL and keeps it otherwise. -/
def obtain_witness_provenances (predicate_types : List String)
    (provenance_assets : List Asset) (repo_remote_path : String) :
    List WitnessProvenance :=
  match provenance_assets with
  | [] => []
  | a :: rest =>
    if a.downloadOk = false then
      obtain_witness_provenances predicate_types rest repo_remote_path
    else
      match a.payload with
      | none => obtain_witness_provenances predicate_types rest repo_remote_path
      | some p =>
        if predicate_types.contains p.predicateType = false then
          obtain_witness_provenances predicate_types rest repo_remote_path
        else if ¬ (p.repoUrl ≠ repo_remote_path) then
          obtain_witness_provenances predicate_types rest repo_remote_path
        else
          ⟨a, p⟩ :: obtain_witness_provenances predicate_types rest repo_remote_path

/-- Oracle view of the `Gradle` build tool as used by the registry search:
`group_ids` is the result of `gradle.get_group_ids(repo_fs_path)`. -/
structure GradleTool where
  group_ids : List String

/-- Oracle view of the `JFrogMavenRegistry` client methods used by the
registry search (`fetch_artifact_ids`, `fetch_latest_version`,
`fetch_assets`); `fetch_assets` takes the group id, artifact id, version and
the provenance extensions. -/
structure JFrogMavenRegistry where
  fetch_artifact_ids : String → List String
  fetch_latest_version : String → String → Option String
  fetch_assets : String → String → String → List String → List Asset

/-- One `PackageRegistryInfo` entry (package_registry_spec.py). `matched` is
`some` exactly when the structural pattern
`PackageRegistryInfo(build_tool=Gradle(), package_registry=JFrogMavenRegistry())`
of lines 120-124 of provenance_available_check.py matches the entry. -/
structure PackageRegistryInfo where
  matched : Option (GradleTool × JFrogMavenRegistry)

/-- The (group id, artifact id, latest version) triples gathered at lines
126-145 of provenance_available_check.py: packages without a latest version
are skipped. -/
def gavs (gradle : GradleTool) (jfrog : JFrogMavenRegistry) :
    List (String × String × String) :=
  gradle.group_ids.flatMap fun group_id =>
    (jfrog.fetch_artifact_ids group_id).filterMap fun artifact_id =>
      match jfrog.fetch_latest_version group_id artifact_id with
      | none => none
      | some version => some (group_id, artifact_id, version)

/-- The candidate provenance assets of one matched (Gradle, JFrog) pairing:
`fetch_assets` over every gathered (group, artifact, version) triple
(lines 147-156 of provenance_available_check.py). -/
def registry_provenance_assets (gradle : GradleTool) (jfrog : JFrogMavenRegistry)
    (provenance_extensions : List String) : List Asset :=
  (gavs gradle jfrog).flatMap fun gav =>
    jfrog.fetch_assets gav.1 gav.2.1 gav.2.2 provenance_extensions

/-- The message of the `ProvenanceAvailableException` raised by the size guard
(lines 176-180 of provenance_available_check.py). -/
def size_violation_msg (asset_name : String) (max_valid_provenance_size : Nat) :
    String :=
  "The provenance asset " ++ asset_name ++
    " unexpectedly exceeds the max valid file size of " ++
    toString max_valid_provenance_size ++
    " (bytes). The check will not proceed due to potential security risks."

/-- An entry the registry loop of
`find_provenance_assets_on_package_registries` passes over: either the
structural pattern does not match, or the pairing yields no candidate
provenance assets. -/
def yields_no_assets (provenance_extensions : List String)
    (entry : PackageRegistryInfo) : Prop :=
  match entry.matched with
  | none => True
  | some gj => registry_provenance_assets gj.1 gj.2 provenance_extensions = []

/-- Embedding of
`ProvenanceAvailableCheck.find_provenance_assets_on_package_registries`
(provenance_available_check.py lines 83-200). The first component is the
returned asset sequence together with the witness provenances persisted on
the matching info entry, or the `ProvenanceAvailableException` message of the
size guard; the second component is the trace of asset names whose download
was attempted (downloads happen only inside `obtain_witness_provenances`,
which attempts one download per surviving asset). -/
def find_provenance_assets_on_package_registries
    (max_valid_provenance_size : Nat) (predicate_types : List String)
    (repo_remote_path : String) (provenance_extensions : List String)
    (package_registry_info_entries : List PackageRegistryInfo) :
    Except String (List Asset × List WitnessProvenance) × List String :=
  match package_registry_info_entries with
  | [] => (.ok ([], []), [])
  | entry :: rest =>
    match entry.matched with
    | none =>
      find_provenance_assets_on_package_registries max_valid_provenance_size
        predicate_types repo_remote_path provenance_extensions rest
    | some gj =>
      let provenance_assets :=
        registry_provenance_assets gj.1 gj.2 provenance_extensions
      if provenance_assets = [] then
        find_provenance_assets_on_package_registries max_valid_provenance_size
          predicate_types repo_remote_path provenance_extensions rest
      else
        match provenance_assets.find?
            (fun a => decide (max_valid_provenance_size < a.size_in_bytes)) with
        | some oversized =>
          (.error (size_violation_msg oversized.name max_valid_provenance_size), [])
        | none =>
          (.ok (provenance_assets,
                obtain_witness_provenances predicate_types provenance_assets
                  repo_remote_path),
           provenance_assets.map (fun a => a.name))

/-- Kinds of CI service instances the checks distinguish (`NoneCIService`,
GitHub Actions, and the four services without config parsing). -/
inductive CIServiceKind where
  | githubActions
  | jenkins
  | travis
  | circleci
  | gitlabci
  | noneService
  deriving DecidableEq, Repr

/-- Oracle view of one CI service and of the api-client collaborator methods
the two checks call on it. `get_file_link` stands for
`api_client.get_file_link(repo, sha, path)` as a function of the path,
`has_latest_run_passed` for `ci_service.has_latest_run_passed(...)` as a
function of the workflow file name (returning the run URL or `None`), and
`has_kws_in_config` for `ci_service.has_kws_in_config(keywords, repo_path)`
returning a (keyword, config name) pair. -/
structure CIService where
  kind : CIServiceKind
  name : String
  get_file_link : String → String
  get_relative_path_of_workflow : String → String
  has_latest_run_passed : String → Option String
  has_kws_in_config : List String → String × String

/-- One extracted bash-command record of `ci_info["bash_commands"]`: the
parsed commands plus the CI config file and source file they come from. -/
structure BashCommands where
  commands : List (List String)
  CI_path : String
  caller_path : String
  deriving DecidableEq, Repr

/-- Node types of the GitHub Actions workflow call graph. -/
inductive GHWorkflowType where
  | EXTERNAL
  | REUSABLE
  | INTERNAL
  deriving DecidableEq, Repr

/-- One callee produced by `ci_info["callgraph"].bfs()`. -/
structure WorkflowCallee where
  name : String
  node_type : GHWorkflowType
  caller_path : String
  deriving DecidableEq, Repr

/-- One `CIInfo` entry (the TypedDict shared by both checks): the service,
the parsed bash commands, the workflow call graph in bfs order, the
discovered provenance assets, the latest release (an oracle for
`api_client.get_latest_release`, with the release modelled by its tag), the
`api_client.get_assets(release, ext)` oracle, and the downloaded provenance
payloads. -/
structure CIInfo where
  service : CIService
  bash_commands : List BashCommands
  callgraph : List WorkflowCallee
  provenance_assets : List Asset
  latest_release : Option String
  get_assets : String → String → List Asset
  provenances : List ProvenancePayload

/-- One pass of the download loop of
`download_provenances_from_github_actions_ci_service`
(provenance_available_check.py lines 392-430): the collected payloads and the
trace of asset names whose download was attempted. An asset whose declared
size exceeds the maximum is skipped before any download (lines 395-405); a
failed download or a payload load error skips that one asset after the
attempt. -/
def ci_download_loop (max_download_size : Nat) :
    List Asset → List ProvenancePayload × List String
  | [] => ([], [])
  | a :: rest =>
    let r := ci_download_loop max_download_size rest
    if max_download_size < a.size_in_bytes then r
    else if a.downloadOk = false then (r.1, a.name :: r.2)
    else
      match a.payload with
      | none => (r.1, a.name :: r.2)
      | some p => (p :: r.1, a.name :: r.2)

/-- Embedding of
`ProvenanceAvailableCheck.download_provenances_from_github_actions_ci_service`
(provenance_available_check.py lines 381-430), as a function of the
`ci_info["provenance_assets"]` list it reads. The source contains no `raise`
on this path, so the result is always `.ok`; the `Except` wrapper makes the
absence of the size-violation exception an explicit part of the embedding. -/
def download_provenances_from_github_actions_ci_service
    (max_download_size : Nat) (prov_assets : List Asset) :
    Except String (List ProvenancePayload × List String) :=
  .ok (ci_download_loop max_download_size prov_assets)

/-- The inner loop over provenance extensions of
`find_provenance_assets_on_ci_services` (lines 357-377): the first extension
yielding any release asset wins. -/
def first_nonempty_assets (ci_info : CIInfo) (release : String) :
    List String → List Asset
  | [] => []
  | ext :: rest =>
    let provenance_assets := ci_info.get_assets release ext
    if provenance_assets = [] then first_nonempty_assets ci_info release rest
    else provenance_assets

/-- Embedding of
`ProvenanceAvailableCheck.find_provenance_assets_on_ci_services`
(provenance_available_check.py lines 312-379): skip `NoneCIService` entries
and services without a latest release; on the first service and extension
yielding assets, extend `ci_info["provenance_assets"]`, download the payloads
(same size guard as the CI download loop) and return the extended asset list.
The second component is the download-attempt trace. -/
def find_provenance_assets_on_ci_services (max_download_size : Nat)
    (provenance_extensions : List String) (ci_info_entries : List CIInfo) :
    List Asset × List String :=
  match ci_info_entries with
  | [] => ([], [])
  | ci_info :: rest =>
    if ci_info.service.kind = CIServiceKind.noneService then
      find_provenance_assets_on_ci_services max_download_size
        provenance_extensions rest
    else
      match ci_info.latest_release with
      | none =>
        find_provenance_assets_on_ci_services max_download_size
          provenance_extensions rest
      | some release =>
        let found := first_nonempty_assets ci_info release provenance_extensions
        if found = [] then
          find_provenance_assets_on_ci_services max_download_size
            provenance_extensions rest
        else
          let all_assets := ci_info.provenance_assets ++ found
          (all_assets, (ci_download_loop max_download_size all_assets).2)

/-- The slice of the `AnalyzeContext` read by `ProvenanceAvailableCheck`:
repository identity plus the registry and CI info entries of
`ctx.dynamic_data`. -/
structure ProvenanceCheckCtx where
  repo_remote_path : String
  package_registries : List PackageRegistryInfo
  ci_services : List CIInfo

/-- Observable outcome of one `ProvenanceAvailableCheck.run_check` run: the
returned status, the final `check_result["justification"]`, and the write to
`ctx.dynamic_data["is_inferred_prov"]` (`none` when the flag is left
untouched). -/
structure ProvenanceCheckOutcome where
  result : CheckResultType
  justification : List String
  is_inferred_prov_write : Option Bool
  deriving DecidableEq, Repr

namespace ProvenanceAvailableCheck

/-- Embedding of `ProvenanceAvailableCheck.run_check`
(provenance_available_check.py lines 432-488): registry search first, CI
fallback only when it returns an empty sequence (the short-circuiting `or` of
lines 455-465); a `ProvenanceAvailableException` replaces the justification
with the error message and fails the check; a non-empty asset list sets
`is_inferred_prov` to `False` and passes. -/
def run_check (max_download_size : Nat)
    (predicate_types provenance_extensions : List String)
    (ctx : ProvenanceCheckCtx) : ProvenanceCheckOutcome :=
  match (find_provenance_assets_on_package_registries max_download_size
      predicate_types ctx.repo_remote_path provenance_extensions
      ctx.package_registries).1 with
  | .error msg => ⟨CheckResultType.FAILED, [msg], none⟩
  | .ok registry_found =>
    let provenance_assets :=
      if registry_found.1 = [] then
        (find_provenance_assets_on_ci_services max_download_size
          provenance_extensions ctx.ci_services).1
      else registry_found.1
    if provenance_assets = [] then
      ⟨CheckResultType.FAILED, ["Could not find any SLSA provenances."], none⟩
    else
      ⟨CheckResultType.PASSED,
       "Found provenance in release assets:" ::
         provenance_assets.map (fun a => a.name),
       some false⟩

end ProvenanceAvailableCheck

/-- Fields of `BaseBuildTool` read by `build_as_code_check.py` (the build-tool
classes live outside the analyzed sources). Modelled from the spec: a build
tool exposes builder/publisher program names, interpreter names and module
flags, a deploy-argument set, and per-CI deploy keywords; `is_none` marks
`NoneBuildTool` and `is_pip` marks the `Pip` build tool. -/
structure BaseBuildTool where
  name : String
  builder : List String
  publisher : List String
  interpreter : List String
  interpreter_flag : List String
  deploy_arg : List String
  ci_deploy_kws : String → List String
  is_none : Bool
  is_pip : Bool

/-- The deploy tool chosen at line 51 of build_as_code_check.py:
`build_tool.publisher if build_tool.publisher else build_tool.builder`. -/
def deploy_tool_of (build_tool : BaseBuildTool) : List String :=
  if build_tool.publisher = [] then build_tool.builder else build_tool.publisher

/-- Python `os.path.basename` on POSIX paths: the part after the last slash
(computed on the character list so that it reduces definitionally). -/
def basename (path : String) : String :=
  String.mk ((path.toList.reverse.takeWhile (fun c => c ≠ '/')).reverse)

/-- One conjunct of the module-command generator at lines 68-75 of
build_as_code_check.py, for one interpreter name. Python short-circuits the
conjunction left to right, and `com[1]` / `com[2]` raise `IndexError`
(modelled as `.error ()`) when the command is too short. -/
def module_build_command_check (com : List String) (cmd_program_name : String)
    (build_tool : BaseBuildTool) (interp : String) : Except Unit Bool :=
  if interp = cmd_program_name then
    match com.get? 1 with
    | none => .error ()
    | some c1 =>
      if c1 = "" then .ok false
      else if build_tool.interpreter_flag.contains c1 = false then .ok false
      else
        match com.get? 2 with
        | none => .error ()
        | some c2 =>
          if c2 = "" then .ok false
          else .ok ((deploy_tool_of build_tool).contains c2)
  else .ok false

/-- Python `any(...)` over a generator whose elements may raise: elements are
produced in order, the first true element short-circuits, and an exception
aborts the whole expression. -/
def any_except {α : Type} (f : α → Except Unit Bool) : List α → Except Unit Bool
  | [] => .ok false
  | x :: xs =>
    match f x with
    | .error e => .error e
    | .ok true => .ok true
    | .ok false => any_except f xs

/-- Python `str(com)` of a command list as observed by the check: a bracketed
rendering of the words; what matters downstream is that it is never the empty
string (Python truthiness of the returned deploy command). -/
def str_of_command (com : List String) : String :=
  "[" ++ String.intercalate ", " com ++ "]"

/-- Embedding of `has_deploy_command` (build_as_code_check.py lines 48-90).
Empty commands and empty program names are skipped; a command whose program
name is in the deploy tool, or which invokes the deploy tool through an
interpreter and module flag, is accepted when the build tool has no deploy
arguments or one of its remaining words is a deploy argument; the Python
`str(com)` return value is modelled by `str_of_command com`. -/
def has_deploy_command (commands : List (List String))
    (build_tool : BaseBuildTool) : Except Unit String :=
  match commands with
  | [] => .ok ""
  | com :: rest =>
    match com.head? with
    | none => has_deploy_command rest build_tool
    | some first =>
      if first = "" then has_deploy_command rest build_tool
      else
        let cmd_program_name := basename first
        if cmd_program_name = "" then has_deploy_command rest build_tool
        else
          let check_build_commands :=
            (deploy_tool_of build_tool).any (fun b => b == cmd_program_name)
          match any_except
              (module_build_command_check com cmd_program_name build_tool)
              build_tool.interpreter with
          | .error e => .error e
          | .ok check_module_build_commands =>
            let prog_name_index := if check_module_build_commands then 2 else 0
            if check_build_commands || check_module_build_commands then
              if build_tool.deploy_arg = [] then .ok (str_of_command com)
              else if (com.drop (prog_name_index + 1)).any
                  (fun word => build_tool.deploy_arg.contains word) then
                .ok (str_of_command com)
              else has_deploy_command rest build_tool
            else has_deploy_command rest build_tool

/-- The observable part of one sub-check result dictionary: the certainty in
[0,1] and the remaining string-valued keys (links may be `None`, hence
`Option String` values). A key absent from `entries` raises `KeyError` when
read. -/
structure SubcheckResult where
  certainty : ℚ
  entries : List (String × Option String)
  deriving DecidableEq, Repr

/-- Embedding of `ci_parsed_subcheck` (build_as_code_check.py lines 93-101):
certainty 1 when the CI workflow files were parsed into bash commands, else
certainty 0. -/
def ci_parsed_subcheck (ci_info : CIInfo) : SubcheckResult :=
  if ci_info.bash_commands = [] then ⟨0, []⟩ else ⟨1, []⟩

/-- The callgraph loop of `deploy_action_subcheck` (build_as_code_check.py
lines 114-160): skip callees without a workflow name or whose node type is
neither EXTERNAL nor REUSABLE; the first callee whose workflow name is in the
trusted deploy actions yields certainty 0.8 and the link entries of the
returned dictionary. -/
def deploy_action_loop (trusted_deploy_actions : List String) (svc : CIService) :
    List WorkflowCallee → SubcheckResult
  | [] => ⟨0, []⟩
  | callee :: rest =>
    let workflow_name := (callee.name.splitOn "@").headD ""
    if workflow_name = "" then deploy_action_loop trusted_deploy_actions svc rest
    else if callee.node_type ≠ GHWorkflowType.EXTERNAL ∧
        callee.node_type ≠ GHWorkflowType.REUSABLE then
      deploy_action_loop trusted_deploy_actions svc rest
    else if trusted_deploy_actions.contains workflow_name then
      let trigger_link := svc.get_file_link
        (svc.get_relative_path_of_workflow (basename callee.caller_path))
      let deploy_action_source_link := svc.get_file_link callee.caller_path
      let html_url := svc.has_latest_run_passed (basename callee.caller_path)
      ⟨4/5, [("deploy_command", some workflow_name),
             ("trigger_link", some trigger_link),
             ("deploy_action_source_link", some deploy_action_source_link),
             ("html_url", html_url)]⟩
    else deploy_action_loop trusted_deploy_actions svc rest

/-- Embedding of `deploy_action_subcheck` (build_as_code_check.py lines
104-162): only the `Pip` build tool is inspected for trusted deploy
workflows; every other build tool yields certainty 0. -/
def deploy_action_subcheck (trusted_deploy_actions : List String)
    (ci_info : CIInfo) (build_tool : BaseBuildTool) : SubcheckResult :=
  if build_tool.is_pip then
    deploy_action_loop trusted_deploy_actions ci_info.service ci_info.callgraph
  else ⟨0, []⟩

/-- The bash-command loop of `deploy_command_subcheck` (build_as_code_check.py
lines 170-210): the first record whose commands contain a deploy command
yields certainty 0.7 and the link entries of the returned dictionary
(note the keys: `deploy_cmd`, `trigger_link`, `bash_source_link`,
`html_url`). -/
def deploy_command_loop (svc : CIService) (build_tool : BaseBuildTool) :
    List BashCommands → Except Unit SubcheckResult
  | [] => .ok ⟨0, []⟩
  | bash_cmd :: rest =>
    match has_deploy_command bash_cmd.commands build_tool with
    | .error e => .error e
    | .ok deploy_cmd =>
      if deploy_cmd = "" then deploy_command_loop svc build_tool rest
      else
        let trigger_link := svc.get_file_link
          (svc.get_relative_path_of_workflow (basename bash_cmd.CI_path))
        let bash_source_link := svc.get_file_link bash_cmd.caller_path
        let html_url := svc.has_latest_run_passed (basename bash_cmd.CI_path)
        .ok ⟨7/10, [("deploy_cmd", some deploy_cmd),
                    ("trigger_link", some trigger_link),
                    ("bash_source_link", some bash_source_link),
                    ("html_url", html_url)]⟩

/-- Embedding of `deploy_command_subcheck` (build_as_code_check.py lines
165-210). -/
def deploy_command_subcheck (ci_info : CIInfo) (build_tool : BaseBuildTool) :
    Except Unit SubcheckResult :=
  deploy_command_loop ci_info.service build_tool ci_info.bash_commands

/-- Embedding of `deploy_kws_subcheck` (build_as_code_check.py lines 213-235):
only the four CI services without config parsing are inspected; a deploy
keyword found in the service config yields certainty 0.6. -/
def deploy_kws_subcheck (svc : CIService) (build_tool : BaseBuildTool) :
    SubcheckResult :=
  if svc.kind = CIServiceKind.jenkins ∨ svc.kind = CIServiceKind.travis ∨
      svc.kind = CIServiceKind.circleci ∨ svc.kind = CIServiceKind.gitlabci then
    if build_tool.ci_deploy_kws svc.name = [] then ⟨0, []⟩
    else
      let r := svc.has_kws_in_config (build_tool.ci_deploy_kws svc.name)
      if r.2 = "" then ⟨0, []⟩
      else ⟨3/5, [("deploy_kw", some r.1), ("config_name", some r.2)]⟩
  else ⟨0, []⟩

/-- Probability weight of one truth value of an independent Boolean fact
declared with probability `p`. -/
def bern (p : ℚ) (b : Bool) : ℚ := if b then p else 1 - p

/-- Sum of a quantity over the two truth values of one Boolean fact. -/
def worldSum (f : Bool → ℚ) : ℚ := f true + f false

/-- Truth of the query `build_as_code_check` of the ProbLog program embedded
at lines 353-374 of build_as_code_check.py, in one possible world:
`cp, da, dc, dk` are the four probabilistic sub-check facts and
`s80, s15a, s70, s15c, s60` are the independent switches of the five
probabilistic clauses (coefficients 0.80, 0.15, 0.70, 0.15, 0.60). -/
def build_as_code_query (cp da dc dk s80 s15a s70 s15c s60 : Bool) : Bool :=
  (da && s80) || (da && cp && s15a) || (dc && s70) || (dc && cp && s15c) ||
    (dk && s60)

/-- Modelled from the spec: the external ProbLog evaluator (invoked as
`get_evaluatable().create_from(prolog_string).evaluate()`, not among the
analyzed sources) computes the marginal probability of the query of the fixed
rule program by exact inference — the sum of the weights of all satisfying
worlds (spec section 4.2). The four sub-check certainties are the
probabilities of the four facts. -/
def fused_confidence (a b c d : ℚ) : ℚ :=
  worldSum fun cp => bern a cp *
  worldSum fun da => bern b da *
  worldSum fun dc => bern c dc *
  worldSum fun dk => bern d dk *
  worldSum fun s80 => bern (4/5) s80 *
  worldSum fun s15a => bern (3/20) s15a *
  worldSum fun s70 => bern (7/10) s70 *
  worldSum fun s15c => bern (3/20) s15c *
  worldSum fun s60 => bern (3/5) s60 *
    (if build_as_code_query cp da dc dk s80 s15a s70 s15c s60 then 1 else 0)

/-- The check-specific pass threshold `self.confidence_score_threshold = 0.3`
set in `BuildAsCodeCheck.__init__` (build_as_code_check.py line 255). -/
def confidence_score_threshold : ℚ := 3/10

/-- Reading one key of a sub-check result dictionary: an absent key raises
`KeyError` (modelled as `.error ()`). -/
def read_key (r : SubcheckResult) (key : String) : Except Unit (Option String) :=
  match r.entries.lookup key with
  | none => .error ()
  | some v => .ok v

/-- The inferred-provenance block of `BuildAsCodeCheck.run_check`
(build_as_code_check.py lines 310-340), reduced to its dictionary reads on
the sub-check results (the in-toto predicate field updates it performs touch
only fields the payload format guarantees and raise nothing): when the
context provenance is inferred and payloads are present, the branch on the
first sub-check with nonzero certainty reads, in source order, the listed
keys of that sub-check's result dictionary. -/
def inferred_prov_updates (is_inferred_prov : Bool) (ci_info : CIInfo)
    (deploy_action deploy_command deploy_kws : SubcheckResult) :
    Except Unit Unit :=
  if is_inferred_prov ∧ ci_info.provenances ≠ [] then
    if deploy_action.certainty ≠ 0 then do
      let _ ← read_key deploy_action "deploy_action_source_link"
      let _ ← read_key deploy_action "deploy_command"
      let _ ← read_key deploy_action "html_url"
      let _ ← read_key deploy_action "trigger_link"
      Except.ok ()
    else if deploy_command.certainty ≠ 0 then do
      let _ ← read_key deploy_command "deploy_action_source_link"
      let _ ← read_key deploy_command "deploy_command"
      let _ ← read_key deploy_command "html_url"
      Except.ok ()
    else if deploy_kws.certainty ≠ 0 then do
      let _ ← read_key deploy_kws "config_name"
      Except.ok ()
    else Except.ok ()
  else Except.ok ()

/-- Observable outcome of one `BuildAsCodeCheck.run_check` run: the returned
status and the fused confidence score written to the check result on the
passing path. -/
structure BuildAsCodeOutcome where
  result : CheckResultType
  confidence_score : Option ℚ
  deriving DecidableEq, Repr

/-- The slice of the `AnalyzeContext` read by `BuildAsCodeCheck`: the
detected build tool of `dynamic_data["build_spec"]`, the CI info entries, and
the `is_inferred_prov` flag. -/
structure BuildAsCodeCtx where
  build_tool : Option BaseBuildTool
  ci_services : List CIInfo
  is_inferred_prov : Bool

/-- The CI-service loop of `BuildAsCodeCheck.run_check` (build_as_code_check.py
lines 286-412): skip `NoneCIService` entries; run the four sub-checks, run
the inferred-provenance block, fuse the certainties through the ProbLog
program, and return PASSED on the first service whose fused score reaches the
threshold; otherwise fall through to FAILED. -/
def build_as_code_loop (trusted_deploy_actions : List String)
    (is_inferred_prov : Bool) (build_tool : BaseBuildTool) :
    List CIInfo → Except Unit BuildAsCodeOutcome
  | [] => .ok ⟨CheckResultType.FAILED, none⟩
  | ci_info :: rest =>
    if ci_info.service.kind = CIServiceKind.noneService then
      build_as_code_loop trusted_deploy_actions is_inferred_prov build_tool rest
    else
      let ci_parsed := ci_parsed_subcheck ci_info
      let deploy_action :=
        deploy_action_subcheck trusted_deploy_actions ci_info build_tool
      match deploy_command_subcheck ci_info build_tool with
      | .error e => .error e
      | .ok deploy_command =>
        let deploy_kws := deploy_kws_subcheck ci_info.service build_tool
        match inferred_prov_updates is_inferred_prov ci_info deploy_action
            deploy_command deploy_kws with
        | .error e => .error e
        | .ok _ =>
          let confidence_score := fused_confidence ci_parsed.certainty
            deploy_action.certainty deploy_command.certainty
            deploy_kws.certainty
          if confidence_score_threshold ≤ confidence_score then
            .ok ⟨CheckResultType.PASSED, some confidence_score⟩
          else
            build_as_code_loop trusted_deploy_actions is_inferred_prov
              build_tool rest

namespace BuildAsCodeCheck

/-- Embedding of `BuildAsCodeCheck.run_check` (build_as_code_check.py lines
265-422): without a detected build tool (or with `NoneBuildTool`) the check
fails outright; otherwise the CI-service loop decides the outcome.
`trusted_deploy_actions` is the `builder.pip.ci.deploy` configuration list. -/
def run_check (trusted_deploy_actions : List String) (ctx : BuildAsCodeCtx) :
    Except Unit BuildAsCodeOutcome :=
  match ctx.build_tool with
  | none => .ok ⟨CheckResultType.FAILED, none⟩
  | some build_tool =>
    if build_tool.is_none then .ok ⟨CheckResultType.FAILED, none⟩
    else
      build_as_code_loop trusted_deploy_actions ctx.is_inferred_prov build_tool
        ctx.ci_services

end BuildAsCodeCheck

/-- Embedding of `non_interactive` (policy_engine/__main__.py lines 40-67) as
a function of the evaluation result it observes. Modelled from the spec where
the collaborator is missing: `policy_engine` (not among the analyzed sources)
returns a mapping from relation name to the ordered list of derived rows, a
row being rendered as a string; Python truthiness of a row is `row != ""`.
With `--show-prelude` the schema is printed and `False` returned without
evaluating any program; otherwise the result is
`("failed_policies" in res) and any(res["failed_policies"])` (line 67). -/
def non_interactive (show_prelude : Bool)
    (res : List (String × List String)) : Bool :=
  if show_prelude then false
  else
    match res.lookup "failed_policies" with
    | none => false
    | some rows => rows.any (fun row => row != "")

/-- The process exit of `main` (policy_engine/__main__.py lines 105-106):
`sys.exit(res)` with a boolean exits with code 1 on `True` and 0 on
`False`. -/
def main_exit_code (show_prelude : Bool)
    (res : List (String × List String)) : Nat :=
  if non_interactive show_prelude res then 1 else 0

/-- Gradle fixture owning one group id. -/
def exampleGradle : GradleTool := ⟨["com.example"]⟩

/-- JFrog registry fixture hosting one oversized provenance asset
(1,000,001 bytes, one over the default maximum). -/
def jfrogOversized : JFrogMavenRegistry :=
  ⟨fun _ => ["artifact"], fun _ _ => some "1.0",
   fun _ _ _ _ =>
     [⟨"big.intoto.jsonl", "https://jfrog.example/big.intoto.jsonl", 1000001,
       true, none⟩]⟩

/-- JFrog registry fixture hosting one provenance asset of exactly the
default maximum size (1,000,000 bytes). -/
def jfrogAtBound : JFrogMavenRegistry :=
  ⟨fun _ => ["artifact"], fun _ _ => some "1.0",
   fun _ _ _ _ =>
     [⟨"exact.intoto.jsonl", "https://jfrog.example/exact.intoto.jsonl",
       1000000, true, none⟩]⟩

/-- JFrog registry fixture hosting two provenance assets, the second of size
2,000,000 bytes (over a 1,000,000 maximum). -/
def jfrogTwoAssets : JFrogMavenRegistry :=
  ⟨fun _ => ["artifact"], fun _ _ => some "1.0",
   fun _ _ _ _ =>
     [⟨"small.intoto.jsonl", "https://jfrog.example/small.intoto.jsonl", 1000,
       true, none⟩,
      ⟨"big.intoto.jsonl", "https://jfrog.example/big.intoto.jsonl", 2000000,
       true, none⟩]⟩

/-- Build-tool fixture in the shape of the Maven build tool: builder programs
`mvn`/`mvnw`, no separate publisher, no interpreter, deploy argument
`deploy`, no per-CI deploy keywords; not `NoneBuildTool`, not `Pip`. -/
def mavenTool : BaseBuildTool :=
  ⟨"maven", ["mvn", "mvnw"], [], [], [], ["deploy"], fun _ => [], false, false⟩

/-- Build-tool fixture whose deploy tool does not contain `mvn`: builder
program `gradle`, deploy argument `deploy`. -/
def gradleOnlyTool : BaseBuildTool :=
  ⟨"gradle", ["gradle"], [], [], [], ["deploy"], fun _ => [], false, false⟩

/-- GitHub Actions service fixture with constant link oracles. -/
def ghaService : CIService :=
  ⟨CIServiceKind.githubActions, "github_actions",
   fun _ => "https://github.com/oracle/macaron/blob/x/y",
   fun p => p, fun _ => none, fun _ => ("", "")⟩

/-- Bash-command record fixture containing the single command `mvn deploy`. -/
def bashMvnDeploy : BashCommands :=
  ⟨[["mvn", "deploy"]], "maven.yaml", "maven.yaml"⟩

/-- CI info fixture: a GitHub Actions service whose parsed bash commands are
exactly `mvn deploy`; no call graph, no provenance payloads. -/
def ciMvnDeploy : CIInfo :=
  ⟨ghaService, [bashMvnDeploy], [], [], none, fun _ _ => [], []⟩

/-- CI info fixture like `ciMvnDeploy` but holding one downloaded provenance
payload (the inferred-provenance situation of `BuildAsCodeCheck`). -/
def ciMvnDeployInferred : CIInfo :=
  ⟨ghaService, [bashMvnDeploy], [], [], none, fun _ _ => [],
   [⟨"https://witness.dev/attestation/v0.1",
     "https://github.com/oracle/macaron"⟩]⟩

/-- The deploy-command sub-check result produced on `ciMvnDeployInferred`
with the Maven-shaped build tool: certainty 0.7 and the four keys
`deploy_cmd`, `trigger_link`, `bash_source_link`, `html_url` — and no key
`deploy_action_source_link`. -/
def mvnDeployCommandResult : SubcheckResult :=
  ⟨7/10, [("deploy_cmd", some (str_of_command ["mvn", "deploy"])),
          ("trigger_link", some "https://github.com/oracle/macaron/blob/x/y"),
          ("bash_source_link",
           some "https://github.com/oracle/macaron/blob/x/y"),
          ("html_url", none)]⟩

/-! ## Theorems -/

/-- An entry the registry loop passes over does not change the result of
`find_provenance_assets_on_package_registries`. -/
theorem find_registry_skip (max_valid_provenance_size : Nat)
    (predicate_types : List String) (repo_remote_path : String)
    (provenance_extensions : List String) (entry : PackageRegistryInfo)
    (rest : List PackageRegistryInfo)
    (h : yields_no_assets provenance_extensions entry) :
    find_provenance_assets_on_package_registries max_valid_provenance_size
        predicate_types repo_remote_path provenance_extensions (entry :: rest) =
      find_provenance_assets_on_package_registries max_valid_provenance_size
        predicate_types repo_remote_path provenance_extensions rest := by
  cases hm : entry.matched with
  | none => simp [find_provenance_assets_on_package_registries, hm]
  | some gj =>
    simp only [yields_no_assets, hm] at h
    simp [find_provenance_assets_on_package_registries, hm, h]

/-- A prefix of entries the registry loop passes over does not change the
result of `find_provenance_assets_on_package_registries`. -/
theorem find_registry_skip_append (max_valid_provenance_size : Nat)
    (predicate_types : List String) (repo_remote_path : String)
    (provenance_extensions : List String)
    (pre rest : List PackageRegistryInfo)
    (hpre : ∀ x ∈ pre, yields_no_assets provenance_extensions x) :
    find_provenance_assets_on_package_registries max_valid_provenance_size
        predicate_types repo_remote_path provenance_extensions (pre ++ rest) =
      find_provenance_assets_on_package_registries max_valid_provenance_size
        predicate_types repo_remote_path provenance_extensions rest := by
  induction pre with
  | nil => rfl
  | cons e pre ih =>
    rw [List.cons_append,
      find_registry_skip _ _ _ _ _ _ (hpre e (List.mem_cons_self e pre)),
      ih (fun x hx => hpre x (List.mem_cons_of_mem e hx))]

/-- The registry loop at its first yielding entry: the size guard decides
between the `ProvenanceAvailableException` and the returned assets with their
witness provenances and download trace. -/
theorem find_registry_cons_matched (max_valid_provenance_size : Nat)
    (predicate_types : List String) (repo_remote_path : String)
    (provenance_extensions : List String) (gradle : GradleTool)
    (jfrog : JFrogMavenRegistry) (post : List PackageRegistryInfo)
    (hne : registry_provenance_assets gradle jfrog provenance_extensions ≠ []) :
    find_provenance_assets_on_package_registries max_valid_provenance_size
        predicate_types repo_remote_path provenance_extensions
        (⟨some (gradle, jfrog)⟩ :: post) =
      match (registry_provenance_assets gradle jfrog
          provenance_extensions).find?
          (fun a => decide (max_valid_provenance_size < a.size_in_bytes)) with
      | some oversized =>
        (.error (size_violation_msg oversized.name max_valid_provenance_size),
         [])
      | none =>
        (.ok (registry_provenance_assets gradle jfrog provenance_extensions,
              obtain_witness_provenances predicate_types
                (registry_provenance_assets gradle jfrog provenance_extensions)
                repo_remote_path),
         (registry_provenance_assets gradle jfrog
            provenance_extensions).map (fun a => a.name)) := by
  simp only [find_provenance_assets_on_package_registries]
  rw [if_neg hne]

/-- C2: at the first yielding (Gradle, JFrog) pairing, an asset whose
declared size strictly exceeds the configured maximum makes the registry
discovery return the `ProvenanceAvailableException` before any download is
attempted, while a pairing whose assets are all at or under the maximum
(boundary included) proceeds to the witness-provenance step and returns the
assets. -/
theorem c2_registry_size_guard (max_valid_provenance_size : Nat)
    (predicate_types : List String) (repo_remote_path : String)
    (provenance_extensions : List String)
    (pre post : List PackageRegistryInfo) (gradle : GradleTool)
    (jfrog : JFrogMavenRegistry)
    (hpre : ∀ x ∈ pre, yields_no_assets provenance_extensions x)
    (hne : registry_provenance_assets gradle jfrog provenance_extensions ≠ []) :
    ((registry_provenance_assets gradle jfrog provenance_extensions).any
        (fun a => decide (max_valid_provenance_size < a.size_in_bytes)) = true →
      (∃ msg, (find_provenance_assets_on_package_registries
          max_valid_provenance_size predicate_types repo_remote_path
          provenance_extensions
          (pre ++ ⟨some (gradle, jfrog)⟩ :: post)).1 = .error msg) ∧
      (find_provenance_assets_on_package_registries max_valid_provenance_size
          predicate_types repo_remote_path provenance_extensions
          (pre ++ ⟨some (gradle, jfrog)⟩ :: post)).2 = []) ∧
    ((∀ a ∈ registry_provenance_assets gradle jfrog provenance_extensions,
        a.size_in_bytes ≤ max_valid_provenance_size) →
      (find_provenance_assets_on_package_registries max_valid_provenance_size
          predicate_types repo_remote_path provenance_extensions
          (pre ++ ⟨some (gradle, jfrog)⟩ :: post)).1 =
        .ok (registry_provenance_assets gradle jfrog provenance_extensions,
             obtain_witness_provenances predicate_types
               (registry_provenance_assets gradle jfrog provenance_extensions)
               repo_remote_path)) := by
  rw [find_registry_skip_append _ _ _ _ _ _ hpre,
    find_registry_cons_matched _ _ _ _ _ _ _ hne]
  constructor
  · intro hover
    obtain ⟨a, ha, hpa⟩ := List.any_eq_true.mp hover
    have hsome : ((registry_provenance_assets gradle jfrog
        provenance_extensions).find?
        (fun a => decide (max_valid_provenance_size < a.size_in_bytes))).isSome :=
      List.find?_isSome.mpr ⟨a, ha, hpa⟩
    obtain ⟨b, hb⟩ := Option.isSome_iff_exists.mp hsome
    rw [hb]
    exact ⟨⟨_, rfl⟩, rfl⟩
  · intro hall
    have hnone : (registry_provenance_assets gradle jfrog
        provenance_extensions).find?
        (fun a => decide (max_valid_provenance_size < a.size_in_bytes)) =
        none := by
      apply List.find?_eq_none.mpr
      intro a ha
      simpa using Nat.not_lt.mpr (hall a ha)
    rw [hnone]

/-- Witness for C2: against the default maximum of 1,000,000 bytes, a
1,000,001-byte asset aborts the registry discovery with an error and an
empty download trace, while a 1,000,000-byte asset (exactly at the bound)
passes the guard and is returned. -/
theorem c2_witness :
    ((∃ msg, (find_provenance_assets_on_package_registries 1000000 []
        "https://github.com/oracle/macaron" ["intoto.jsonl"]
        [⟨some (exampleGradle, jfrogOversized)⟩]).1 = .error msg) ∧
     (find_provenance_assets_on_package_registries 1000000 []
        "https://github.com/oracle/macaron" ["intoto.jsonl"]
        [⟨some (exampleGradle, jfrogOversized)⟩]).2 = []) ∧
    (find_provenance_assets_on_package_registries 1000000 []
        "https://github.com/oracle/macaron" ["intoto.jsonl"]
        [⟨some (exampleGradle, jfrogAtBound)⟩]).1 =
      .ok (registry_provenance_assets exampleGradle jfrogAtBound
             ["intoto.jsonl"],
           obtain_witness_provenances []
             (registry_provenance_assets exampleGradle jfrogAtBound
               ["intoto.jsonl"])
             "https://github.com/oracle/macaron") := by
  constructor
  · exact (c2_registry_size_guard 1000000 [] "https://github.com/oracle/macaron"
      ["intoto.jsonl"] [] [] exampleGradle jfrogOversized (by simp)
      (by decide)).1 (by decide)
  · exact (c2_registry_size_guard 1000000 [] "https://github.com/oracle/macaron"
      ["intoto.jsonl"] [] [] exampleGradle jfrogAtBound (by simp)
      (by decide)).2 (by decide)

/-- C7: the registry loop stops at the first pairing that yields candidate
assets — entries after it are never scanned (the result is the same for any
tail) — and `run_check` consults the CI services only when the registry
search returned an empty sequence: with a non-empty registry result the
outcome is independent of the CI info entries. -/
theorem c7_discovery_order_short_circuit :
    (∀ (max_valid_provenance_size : Nat) (predicate_types : List String)
       (repo_remote_path : String) (provenance_extensions : List String)
       (pre post post2 : List PackageRegistryInfo)
       (entry : PackageRegistryInfo),
       (∀ x ∈ pre, yields_no_assets provenance_extensions x) →
       ¬ yields_no_assets provenance_extensions entry →
       find_provenance_assets_on_package_registries max_valid_provenance_size
           predicate_types repo_remote_path provenance_extensions
           (pre ++ entry :: post) =
         find_provenance_assets_on_package_registries max_valid_provenance_size
           predicate_types repo_remote_path provenance_extensions
           (pre ++ entry :: post2)) ∧
    (∀ (max_download_size : Nat) (predicate_types provenance_extensions :
        List String) (ctx : ProvenanceCheckCtx) (other_ci : List CIInfo)
       (registry_found : List Asset × List WitnessProvenance),
       (find_provenance_assets_on_package_registries max_download_size
           predicate_types ctx.repo_remote_path provenance_extensions
           ctx.package_registries).1 = .ok registry_found →
       registry_found.1 ≠ [] →
       ProvenanceAvailableCheck.run_check max_download_size predicate_types
           provenance_extensions ctx =
         ProvenanceAvailableCheck.run_check max_download_size predicate_types
           provenance_extensions
           ⟨ctx.repo_remote_path, ctx.package_registries, other_ci⟩) := by
  constructor
  · intro max_size pt target exts pre post post2 entry hpre hentry
    rw [find_registry_skip_append _ _ _ _ _ _ hpre,
      find_registry_skip_append _ _ _ _ _ _ hpre]
    cases hm : entry.matched with
    | none => exact absurd (by simp [yields_no_assets, hm]) hentry
    | some gj =>
      have hne : registry_provenance_assets gj.1 gj.2 exts ≠ [] := by
        intro hcontra
        exact hentry (by simp [yields_no_assets, hm, hcontra])
      obtain ⟨gradle, jfrog⟩ := gj
      have hentry2 : entry = ⟨some (gradle, jfrog)⟩ := by
        cases entry
        simp_all
      rw [hentry2, find_registry_cons_matched _ _ _ _ _ _ _ hne,
        find_registry_cons_matched _ _ _ _ _ _ _ hne]
  · intro max_size pt exts ctx other_ci registry_found hfind hne
    unfold ProvenanceAvailableCheck.run_check
    simp only [hfind, hne, if_neg, if_false]

/-- Witness for C7: with a first entry yielding one within-bound asset, the
registry result is unchanged when a further (unscanned) entry is appended,
and the check outcome is unchanged when the CI info entries are dropped. -/
theorem c7_witness :
    find_provenance_assets_on_package_registries 1000000 []
        "https://github.com/oracle/macaron" ["intoto.jsonl"]
        ([] ++ (⟨some (exampleGradle, jfrogAtBound)⟩ : PackageRegistryInfo) ::
          []) =
      find_provenance_assets_on_package_registries 1000000 []
        "https://github.com/oracle/macaron" ["intoto.jsonl"]
        ([] ++ (⟨some (exampleGradle, jfrogAtBound)⟩ : PackageRegistryInfo) ::
          [⟨none⟩]) ∧
    ProvenanceAvailableCheck.run_check 1000000 [] ["intoto.jsonl"]
        ⟨"https://github.com/oracle/macaron",
         [⟨some (exampleGradle, jfrogAtBound)⟩], []⟩ =
      ProvenanceAvailableCheck.run_check 1000000 [] ["intoto.jsonl"]
        ⟨"https://github.com/oracle/macaron",
         [⟨some (exampleGradle, jfrogAtBound)⟩], []⟩ := by
  constructor
  · exact c7_discovery_order_short_circuit.1 1000000 []
      "https://github.com/oracle/macaron" ["intoto.jsonl"] [] [] [⟨none⟩] _
      (by simp)
      (by exact fun h =>
        absurd h (by decide :
          ¬ (registry_provenance_assets exampleGradle jfrogAtBound
              ["intoto.jsonl"] = [])))
  · exact c7_discovery_order_short_circuit.2 1000000 [] ["intoto.jsonl"]
      ⟨"https://github.com/oracle/macaron",
       [⟨some (exampleGradle, jfrogAtBound)⟩], []⟩ []
      (registry_provenance_assets exampleGradle jfrogAtBound ["intoto.jsonl"],
       obtain_witness_provenances []
         (registry_provenance_assets exampleGradle jfrogAtBound
           ["intoto.jsonl"])
         "https://github.com/oracle/macaron")
      (by rfl) (by decide)

/-- C8: whenever the registry discovery raises the size-violation error,
`run_check` returns FAILED, and the final justification is exactly the error
message (line 467 of provenance_available_check.py replaces the justification
with `[str(error)]`); the `is_inferred_prov` flag is not written. -/
theorem c8_size_violation_fails_check (max_download_size : Nat)
    (predicate_types provenance_extensions : List String)
    (ctx : ProvenanceCheckCtx) (msg : String)
    (h : (find_provenance_assets_on_package_registries max_download_size
        predicate_types ctx.repo_remote_path provenance_extensions
        ctx.package_registries).1 = .error msg) :
    ProvenanceAvailableCheck.run_check max_download_size predicate_types
        provenance_extensions ctx =
      ⟨CheckResultType.FAILED, [msg], none⟩ := by
  unfold ProvenanceAvailableCheck.run_check
  rw [h]

/-- Witness for C8: a registry whose first yielding pairing hosts two assets,
one of 2,000,000 bytes over the 1,000,000 maximum, makes the whole check
FAILED with the size-violation message as its only justification entry. -/
theorem c8_witness :
    ProvenanceAvailableCheck.run_check 1000000 [] ["intoto.jsonl"]
        ⟨"https://github.com/oracle/macaron",
         [⟨some (exampleGradle, jfrogTwoAssets)⟩], []⟩ =
      ⟨CheckResultType.FAILED, [size_violation_msg "big.intoto.jsonl" 1000000],
       none⟩ :=
  c8_size_violation_fails_check 1000000 [] ["intoto.jsonl"]
    ⟨"https://github.com/oracle/macaron",
     [⟨some (exampleGradle, jfrogTwoAssets)⟩], []⟩
    (size_violation_msg "big.intoto.jsonl" 1000000) (by rfl)

/-- C10: `run_check` writes `is_inferred_prov` (to `False`) exactly on the
PASSED path — at least one provenance asset found — and leaves the flag
untouched on every FAILED outcome (size-violation error or nothing found). -/
theorem c10_inferred_flag_written_only_on_pass (max_download_size : Nat)
    (predicate_types provenance_extensions : List String)
    (ctx : ProvenanceCheckCtx) :
    (ProvenanceAvailableCheck.run_check max_download_size predicate_types
        provenance_extensions ctx).is_inferred_prov_write =
      (if (ProvenanceAvailableCheck.run_check max_download_size predicate_types
          provenance_extensions ctx).result = CheckResultType.PASSED
       then some false else none) := by
  unfold ProvenanceAvailableCheck.run_check
  cases (find_provenance_assets_on_package_registries max_download_size
      predicate_types ctx.repo_remote_path provenance_extensions
      ctx.package_registries).1 with
  | error msg => simp
  | ok registry_found =>
    simp only
    by_cases h1 : registry_found.1 = []
    · simp only [h1, if_true]
      by_cases h2 : (find_provenance_assets_on_ci_services max_download_size
          provenance_extensions ctx.ci_services).1 = []
      · simp [h2]
      · simp [h2]
    · simp [h1]

/-- Closed form of the exact-inference marginal of the fixed ProbLog program:
conditioning on `ci_parsed` and multiplying out the independent rule
switches. -/
theorem fused_confidence_eq (a b c d : ℚ) :
    fused_confidence a b c d =
      1 - (1 - (3/5) * d) *
        (a * (1 - (83/100) * b) * (1 - (149/200) * c) +
         (1 - a) * (1 - (4/5) * b) * (1 - (7/10) * c)) := by
  simp only [fused_confidence, worldSum, bern, build_as_code_query]
  norm_num
  ring

/-- C5: the fused confidence score of the build-as-code ProbLog program is a
deterministic function of the four sub-check certainties, and flipping any
one certainty from 0 to 1 while the others stay fixed in [0,1] never
decreases the fused score. -/
theorem c5_confidence_fusion_deterministic_monotone :
    (∀ a b c d w x y z : ℚ, a = w → b = x → c = y → d = z →
        fused_confidence a b c d = fused_confidence w x y z) ∧
    (∀ a b c d : ℚ, 0 ≤ a → a ≤ 1 → 0 ≤ b → b ≤ 1 → 0 ≤ c → c ≤ 1 →
        0 ≤ d → d ≤ 1 →
        fused_confidence 0 b c d ≤ fused_confidence 1 b c d ∧
        fused_confidence a 0 c d ≤ fused_confidence a 1 c d ∧
        fused_confidence a b 0 d ≤ fused_confidence a b 1 d ∧
        fused_confidence a b c 0 ≤ fused_confidence a b c 1) := by
  constructor
  · intro a b c d w x y z haw hbx hcy hdz
    rw [haw, hbx, hcy, hdz]
  · intro a b c d ha0 ha1 hb0 hb1 hc0 hc1 hd0 hd1
    refine ⟨?_, ?_, ?_, ?_⟩
    · rw [fused_confidence_eq, fused_confidence_eq]
      nlinarith [mul_nonneg hb0 (sub_nonneg.mpr hc1),
        mul_nonneg hc0 (sub_nonneg.mpr hb1), mul_nonneg hb0 hc0,
        sub_nonneg.mpr hd1, mul_nonneg (mul_nonneg hb0 hc0) hd0,
        mul_nonneg (mul_nonneg hb0 (sub_nonneg.mpr hc1)) hd0,
        mul_nonneg (mul_nonneg hc0 (sub_nonneg.mpr hb1)) hd0]
    · rw [fused_confidence_eq, fused_confidence_eq]
      nlinarith [mul_nonneg ha0 (sub_nonneg.mpr hc1),
        mul_nonneg (sub_nonneg.mpr ha1) (sub_nonneg.mpr hc1),
        mul_nonneg ha0 hc0, mul_nonneg (sub_nonneg.mpr ha1) hc0,
        sub_nonneg.mpr hd1,
        mul_nonneg (mul_nonneg ha0 (sub_nonneg.mpr hc1)) hd0,
        mul_nonneg (mul_nonneg (sub_nonneg.mpr ha1) (sub_nonneg.mpr hc1)) hd0,
        mul_nonneg (mul_nonneg ha0 hc0) hd0,
        mul_nonneg (mul_nonneg (sub_nonneg.mpr ha1) hc0) hd0]
    · rw [fused_confidence_eq, fused_confidence_eq]
      nlinarith [mul_nonneg ha0 (sub_nonneg.mpr hb1),
        mul_nonneg (sub_nonneg.mpr ha1) (sub_nonneg.mpr hb1),
        mul_nonneg ha0 hb0, mul_nonneg (sub_nonneg.mpr ha1) hb0,
        sub_nonneg.mpr hd1,
        mul_nonneg (mul_nonneg ha0 (sub_nonneg.mpr hb1)) hd0,
        mul_nonneg (mul_nonneg (sub_nonneg.mpr ha1) (sub_nonneg.mpr hb1)) hd0,
        mul_nonneg (mul_nonneg ha0 hb0) hd0,
        mul_nonneg (mul_nonneg (sub_nonneg.mpr ha1) hb0) hd0]
    · rw [fused_confidence_eq, fused_confidence_eq]
      nlinarith [mul_nonneg ha0 (mul_nonneg hb0 hc0), mul_nonneg ha0 hb0,
        mul_nonneg ha0 hc0, mul_nonneg (sub_nonneg.mpr ha1) hb0,
        mul_nonneg (sub_nonneg.mpr ha1) hc0,
        mul_nonneg (sub_nonneg.mpr ha1) (mul_nonneg hb0 hc0),
        mul_nonneg hb0 hc0]

/-- The rendering of a command list is never the empty string. -/
theorem str_of_command_ne_empty (com : List String) :
    str_of_command com ≠ "" := by
  intro h
  have hlen := congrArg String.length h
  simp [str_of_command, String.length_append] at hlen
  exact absurd hlen.2 (by decide)

/-- With an empty interpreter list the module-command generator is empty, so
`has_deploy_command` never raises. -/
theorem has_deploy_command_ok (build_tool : BaseBuildTool)
    (hinterp : build_tool.interpreter = []) :
    ∀ commands, ∃ s, has_deploy_command commands build_tool = .ok s := by
  intro commands
  induction commands with
  | nil => exact ⟨"", rfl⟩
  | cons com rest ih =>
    unfold has_deploy_command
    rw [hinterp]
    cases com.head? with
    | none => exact ih
    | some first =>
      simp only [any_except]
      repeat' split
      all_goals try exact ih
      all_goals exact ⟨_, rfl⟩

/-- A command list containing `mvn deploy` makes `has_deploy_command` return
a non-empty deploy-command string, for a build tool whose deploy tool
contains `mvn`, whose deploy arguments contain `deploy`, and whose
interpreter list is empty. -/
theorem has_deploy_command_fires (build_tool : BaseBuildTool)
    (hinterp : build_tool.interpreter = [])
    (hmvn : "mvn" ∈ deploy_tool_of build_tool)
    (hdarg : "deploy" ∈ build_tool.deploy_arg) :
    ∀ commands, ["mvn", "deploy"] ∈ commands →
      ∃ s, has_deploy_command commands build_tool = .ok s ∧ s ≠ "" := by
  intro commands hmem
  induction commands with
  | nil => cases hmem
  | cons com rest ih =>
    rcases List.mem_cons.mp hmem with heq | hmem2
    · subst heq
      refine ⟨str_of_command ["mvn", "deploy"], ?_, str_of_command_ne_empty _⟩
      unfold has_deploy_command
      rw [hinterp]
      have hcb : ((deploy_tool_of build_tool).any (fun b => b == "mvn")) =
          true :=
        List.any_eq_true.mpr ⟨"mvn", hmvn, by simp⟩
      have hda : build_tool.deploy_arg ≠ [] := List.ne_nil_of_mem hdarg
      have hcontains : build_tool.deploy_arg.contains "deploy" = true := by
        simpa using hdarg
      simp [any_except, hcb, hda, hcontains,
        show basename "mvn" = "mvn" from rfl]
      exact fun hcon => absurd hdarg hcon
    · obtain ⟨s2, hs2⟩ := has_deploy_command_ok build_tool hinterp rest
      obtain ⟨s4, hs4, hne4⟩ := ih hmem2
      rw [hs2] at hs4
      cases hs4
      unfold has_deploy_command
      rw [hinterp]
      cases com.head? with
      | none => exact ⟨s2, hs2, hne4⟩
      | some first =>
        simp only [any_except]
        repeat' split
        all_goals try exact ⟨s2, hs2, hne4⟩
        all_goals exact ⟨_, rfl, str_of_command_ne_empty _⟩

/-- A bash-command record containing `mvn deploy` makes the deploy-command
sub-check succeed with certainty 0.7 (for a build tool satisfying the same
side conditions). -/
theorem deploy_command_loop_certainty (svc : CIService)
    (build_tool : BaseBuildTool) (hinterp : build_tool.interpreter = [])
    (hmvn : "mvn" ∈ deploy_tool_of build_tool)
    (hdarg : "deploy" ∈ build_tool.deploy_arg) :
    ∀ bcs : List BashCommands,
      (∃ bc ∈ bcs, ["mvn", "deploy"] ∈ bc.commands) →
      ∃ r, deploy_command_loop svc build_tool bcs = .ok r ∧
        r.certainty = 7/10 := by
  intro bcs
  induction bcs with
  | nil => rintro ⟨bc, hbc, _⟩; cases hbc
  | cons bc rest ih =>
    rintro ⟨bc0, hmem, hcmd⟩
    rcases List.mem_cons.mp hmem with heq | hmem2
    · subst heq
      obtain ⟨s, hs, hne⟩ :=
        has_deploy_command_fires build_tool hinterp hmvn hdarg bc0.commands hcmd
      unfold deploy_command_loop
      simp only [hs]
      rw [if_neg hne]
      exact ⟨_, rfl, rfl⟩
    · obtain ⟨s, hs⟩ := has_deploy_command_ok build_tool hinterp bc.commands
      unfold deploy_command_loop
      simp only [hs]
      by_cases hse : s = ""
      · rw [if_pos hse]
        exact ih ⟨bc0, hmem2, hcmd⟩
      · rw [if_neg hse]
        exact ⟨_, rfl, rfl⟩

/-- The deploy-action sub-check certainty is always 0 or 0.8. -/
theorem deploy_action_subcheck_certainty (trusted_deploy_actions : List String)
    (ci_info : CIInfo) (build_tool : BaseBuildTool) :
    (deploy_action_subcheck trusted_deploy_actions ci_info
        build_tool).certainty = 0 ∨
    (deploy_action_subcheck trusted_deploy_actions ci_info
        build_tool).certainty = 4/5 := by
  unfold deploy_action_subcheck
  split
  · generalize ci_info.callgraph = cg
    induction cg with
    | nil => left; rfl
    | cons callee rest ih =>
      unfold deploy_action_loop
      dsimp only
      repeat' split
      all_goals try exact ih
      all_goals exact Or.inr rfl
  · left; rfl

/-- The deploy-keywords sub-check certainty is always 0 or 0.6. -/
theorem deploy_kws_subcheck_certainty (svc : CIService)
    (build_tool : BaseBuildTool) :
    (deploy_kws_subcheck svc build_tool).certainty = 0 ∨
    (deploy_kws_subcheck svc build_tool).certainty = 3/5 := by
  unfold deploy_kws_subcheck
  dsimp only
  repeat' split
  all_goals try exact Or.inl rfl
  all_goals exact Or.inr rfl

/-- With the CI config parsed, the deploy-command sub-check at certainty 0.7,
and the other two sub-checks anywhere in their ranges, the fused score
reaches the 0.3 pass threshold. -/
theorem fused_score_reaches_threshold (da dk : ℚ)
    (hda : da = 0 ∨ da = 4/5) (hdk : dk = 0 ∨ dk = 3/5) :
    confidence_score_threshold ≤ fused_confidence 1 da (7/10) dk := by
  rcases hda with h | h <;> rcases hdk with h2 | h2 <;>
    rw [h, h2, fused_confidence_eq] <;> norm_num [confidence_score_threshold]

/-- Counterexample for C6: a detected build tool with `deploy` in its
deploy-argument set whose deploy tool does not contain `mvn` (here: builder
`gradle`), one CI service whose bash commands are exactly `mvn deploy`: the
deploy-command sub-check returns certainty 0, and the check FAILS instead of
passing, because `has_deploy_command` first requires the command's program
name to be one of the build tool's deploy-tool programs. -/
theorem c6_counterexample :
    deploy_command_subcheck ciMvnDeploy gradleOnlyTool = .ok ⟨0, []⟩ ∧
    BuildAsCodeCheck.run_check [] ⟨some gradleOnlyTool, [ciMvnDeploy], false⟩ =
      .ok ⟨CheckResultType.FAILED, none⟩ := by
  constructor
  · rfl
  · have hscore : ¬ (confidence_score_threshold ≤ fused_confidence 1 0 0 0) := by
      rw [fused_confidence_eq]
      norm_num [confidence_score_threshold]
    have hrun : BuildAsCodeCheck.run_check []
        ⟨some gradleOnlyTool, [ciMvnDeploy], false⟩ =
        build_as_code_loop [] false gradleOnlyTool [ciMvnDeploy] := rfl
    rw [hrun]
    unfold build_as_code_loop
    rw [if_neg (by decide :
      ¬ (ciMvnDeploy.service.kind = CIServiceKind.noneService))]
    have h1 : deploy_command_subcheck ciMvnDeploy gradleOnlyTool =
        .ok ⟨0, []⟩ := rfl
    have h2 : ci_parsed_subcheck ciMvnDeploy = ⟨1, []⟩ := rfl
    have h3 : deploy_action_subcheck [] ciMvnDeploy gradleOnlyTool =
        ⟨0, []⟩ := rfl
    have h4 : deploy_kws_subcheck ciMvnDeploy.service gradleOnlyTool =
        ⟨0, []⟩ := rfl
    have h5 : inferred_prov_updates false ciMvnDeploy ⟨0, []⟩ ⟨0, []⟩ ⟨0, []⟩ =
        .ok () := rfl
    simp only [h1, h2, h3, h4, h5]
    rw [if_neg hscore]
    rfl

/-- C6 (amended): for every analysis context with a detected build tool
(not `NoneBuildTool`) whose deploy tool contains `mvn`, whose interpreter
list is empty, and with `deploy` in its deploy-argument set, and one
non-`NoneCIService` CI service whose parsed bash commands contain
`mvn deploy`, with the inferred-provenance flag unset: the deploy-command
sub-check returns certainty 0.7, the fused confidence score reaches the 0.3
threshold, and `BuildAsCodeCheck.run_check` returns PASSED. -/
theorem c6_deploy_command_scenario (trusted_deploy_actions : List String)
    (build_tool : BaseBuildTool) (ci_info : CIInfo) (bc : BashCommands)
    (hnone : build_tool.is_none = false)
    (hmvn : "mvn" ∈ deploy_tool_of build_tool)
    (hinterp : build_tool.interpreter = [])
    (hdarg : "deploy" ∈ build_tool.deploy_arg)
    (hsvc : ci_info.service.kind ≠ CIServiceKind.noneService)
    (hbc : bc ∈ ci_info.bash_commands)
    (hcmd : ["mvn", "deploy"] ∈ bc.commands) :
    ∃ (r : SubcheckResult) (score : ℚ),
      deploy_command_subcheck ci_info build_tool = .ok r ∧
      r.certainty = 7/10 ∧
      confidence_score_threshold ≤ score ∧
      BuildAsCodeCheck.run_check trusted_deploy_actions
          ⟨some build_tool, [ci_info], false⟩ =
        .ok ⟨CheckResultType.PASSED, some score⟩ := by
  obtain ⟨r, hr, hcert⟩ := deploy_command_loop_certainty ci_info.service
    build_tool hinterp hmvn hdarg ci_info.bash_commands ⟨bc, hbc, hcmd⟩
  have hr2 : deploy_command_subcheck ci_info build_tool = .ok r := hr
  have hbcne : ci_info.bash_commands ≠ [] := List.ne_nil_of_mem hbc
  have hcp : ci_parsed_subcheck ci_info = ⟨1, []⟩ := by
    simp [ci_parsed_subcheck, hbcne]
  have hscore := fused_score_reaches_threshold
    (deploy_action_subcheck trusted_deploy_actions ci_info build_tool).certainty
    (deploy_kws_subcheck ci_info.service build_tool).certainty
    (deploy_action_subcheck_certainty trusted_deploy_actions ci_info build_tool)
    (deploy_kws_subcheck_certainty ci_info.service build_tool)
  refine ⟨r, fused_confidence 1
    (deploy_action_subcheck trusted_deploy_actions ci_info build_tool).certainty
    (7/10)
    (deploy_kws_subcheck ci_info.service build_tool).certainty,
    hr2, hcert, hscore, ?_⟩
  have hrun : BuildAsCodeCheck.run_check trusted_deploy_actions
      ⟨some build_tool, [ci_info], false⟩ =
      build_as_code_loop trusted_deploy_actions false build_tool [ci_info] := by
    unfold BuildAsCodeCheck.run_check
    simp [hnone]
  rw [hrun]
  unfold build_as_code_loop
  rw [if_neg hsvc]
  have hupd : inferred_prov_updates false ci_info
      (deploy_action_subcheck trusted_deploy_actions ci_info build_tool) r
      (deploy_kws_subcheck ci_info.service build_tool) = .ok () := by
    simp [inferred_prov_updates]
  simp only [hr2, hcp, hupd, hcert]
  rw [if_pos hscore]

/-- Witness for C6 (amended): the Maven-shaped build tool, a GitHub Actions
service with bash command `mvn deploy`, provenance not inferred. -/
theorem c6_witness :
    ∃ (r : SubcheckResult) (score : ℚ),
      deploy_command_subcheck ciMvnDeploy mavenTool = .ok r ∧
      r.certainty = 7/10 ∧
      confidence_score_threshold ≤ score ∧
      BuildAsCodeCheck.run_check [] ⟨some mavenTool, [ciMvnDeploy], false⟩ =
        .ok ⟨CheckResultType.PASSED, some score⟩ :=
  c6_deploy_command_scenario [] mavenTool ciMvnDeploy bashMvnDeploy rfl
    (by decide) rfl (by decide) (by decide) (by decide) (by decide)

/-- C9 evaluated at its failing input: with the inferred-provenance flag set,
one provenance payload present, the deploy-action sub-check at certainty 0
and the deploy-command sub-check at certainty 0.7, `BuildAsCodeCheck.run_check`
raises `KeyError` instead of terminating normally: line 331 of
build_as_code_check.py reads `deploy_command["deploy_action_source_link"]`,
but the deploy-command sub-check result only carries the keys `deploy_cmd`,
`trigger_link`, `bash_source_link` and `html_url`. -/
theorem c9_keyerror_on_inferred_prov_path :
    (deploy_action_subcheck [] ciMvnDeployInferred mavenTool).certainty = 0 ∧
    deploy_command_subcheck ciMvnDeployInferred mavenTool =
      .ok mvnDeployCommandResult ∧
    read_key mvnDeployCommandResult "deploy_action_source_link" = .error () ∧
    BuildAsCodeCheck.run_check [] ⟨some mavenTool, [ciMvnDeployInferred], true⟩ =
      .error () := by
  refine ⟨rfl, rfl, rfl, ?_⟩
  have hrun : BuildAsCodeCheck.run_check []
      ⟨some mavenTool, [ciMvnDeployInferred], true⟩ =
      build_as_code_loop [] true mavenTool [ciMvnDeployInferred] := rfl
  rw [hrun]
  unfold build_as_code_loop
  rw [if_neg (by decide :
    ¬ (ciMvnDeployInferred.service.kind = CIServiceKind.noneService))]
  have hdc : deploy_command_subcheck ciMvnDeployInferred mavenTool =
      .ok mvnDeployCommandResult := rfl
  have h3 : deploy_action_subcheck [] ciMvnDeployInferred mavenTool =
      ⟨0, []⟩ := rfl
  have h4 : deploy_kws_subcheck ciMvnDeployInferred.service mavenTool =
      ⟨0, []⟩ := rfl
  have hupd : inferred_prov_updates true ciMvnDeployInferred ⟨0, []⟩
      mvnDeployCommandResult ⟨0, []⟩ = .error () := by
    unfold inferred_prov_updates
    rw [if_pos ⟨rfl, by decide⟩]
    rw [if_neg (by simp : ¬ ((⟨0, []⟩ : SubcheckResult).certainty ≠ 0))]
    rw [if_pos (by norm_num [mvnDeployCommandResult] :
      mvnDeployCommandResult.certainty ≠ 0)]
    rfl
  simp only [hdc, h3, h4, hupd]

/-- Witness for C5: monotonicity instantiated at the concrete certainties
(1/2, 1/2, 1/2, 1/2), first coordinate flipped from 0 to 1. -/
theorem c5_witness :
    fused_confidence 0 (1/2) (1/2) (1/2) ≤ fused_confidence 1 (1/2) (1/2) (1/2) :=
  (c5_confidence_fusion_deterministic_monotone.2 (1/2) (1/2) (1/2) (1/2)
    (by norm_num) (by norm_num) (by norm_num) (by norm_num) (by norm_num)
    (by norm_num) (by norm_num) (by norm_num)).1

/-- Counterexample for C4: a result mapping whose `failed_policies` relation
is present and is a non-empty list of rows (one row, the empty string) on
which `non_interactive` nevertheless returns `False`, because line 67 tests
`any(res["failed_policies"])` — Python truthiness of the rows — rather than
non-emptiness of the list. -/
theorem c4_counterexample :
    non_interactive false [("failed_policies", [""])] = false := rfl

/-- C4 (amended): `non_interactive` returns `True` iff the `failed_policies`
relation is present and contains at least one truthy (non-empty) row; with
`show_prelude` it returns `False` (so `main` exits 0) without consulting the
evaluation result at all. -/
theorem c4_policy_exit_semantics (res : List (String × List String)) :
    (non_interactive false res = true ↔
      ∃ rows, res.lookup "failed_policies" = some rows ∧
        ∃ row ∈ rows, row ≠ "") ∧
    non_interactive true res = false ∧
    (main_exit_code false res = 0 ↔ non_interactive false res = false) ∧
    main_exit_code true res = 0 := by
  refine ⟨?_, rfl, ?_, ?_⟩
  · unfold non_interactive
    cases h : res.lookup "failed_policies" with
    | none => simp
    | some rows => simp [List.any_eq_true, bne_iff_ne]
  · unfold main_exit_code
    cases hni : non_interactive false res <;> simp [hni]
  · unfold main_exit_code non_interactive
    simp

/-- C1 evaluated at its failing input: a witness-typed payload whose embedded
repository URL exactly equals the analyzed repository's remote URL is
dropped by `obtain_witness_provenances`, while an otherwise identical payload
embedding a different repository URL is accepted — line 249 of
provenance_available_check.py (`if not repo_url != repo_remote_path:
continue`) inverts the intended equality check. -/
theorem c1_witness_url_match_inverted :
    obtain_witness_provenances ["https://witness.dev/attestation/v0.1"]
      [⟨"p.intoto.jsonl", "https://jfrog.example/p.intoto.jsonl", 100, true,
        some ⟨"https://witness.dev/attestation/v0.1",
              "https://github.com/oracle/macaron"⟩⟩]
      "https://github.com/oracle/macaron" = [] ∧
    obtain_witness_provenances ["https://witness.dev/attestation/v0.1"]
      [⟨"p.intoto.jsonl", "https://jfrog.example/p.intoto.jsonl", 100, true,
        some ⟨"https://witness.dev/attestation/v0.1",
              "https://github.com/attacker/evil"⟩⟩]
      "https://github.com/oracle/macaron" =
      [⟨⟨"p.intoto.jsonl", "https://jfrog.example/p.intoto.jsonl", 100, true,
         some ⟨"https://witness.dev/attestation/v0.1",
               "https://github.com/attacker/evil"⟩⟩,
        ⟨"https://witness.dev/attestation/v0.1",
         "https://github.com/attacker/evil"⟩⟩] := by
  constructor <;> rfl

/-- Counterexample for C3: a CI-hosted provenance asset of declared size
2,000,000 bytes against the default maximum of 1,000,000 does not make
`download_provenances_from_github_actions_ci_service` raise — the function
returns normally with the asset skipped (no payload, no download attempt),
lines 395-405 of provenance_available_check.py. -/
theorem c3_counterexample :
    download_provenances_from_github_actions_ci_service 1000000
      [⟨"multiple.intoto.jsonl", "https://ci.example/multiple.intoto.jsonl",
        2000000, true,
        some ⟨"https://witness.dev/attestation/v0.1",
              "https://github.com/oracle/macaron"⟩⟩] = .ok ([], []) := rfl

/-- Unfolding of the CI download loop: the attempted downloads are exactly
the assets within the size bound, and the collected payloads are the
successfully downloaded and parsed ones among them. -/
theorem ci_download_loop_eq (max_download_size : Nat) (prov_assets : List Asset) :
    ci_download_loop max_download_size prov_assets =
      ((prov_assets.filter
          (fun a => decide (a.size_in_bytes ≤ max_download_size))).filterMap
        (fun a => if a.downloadOk then a.payload else none),
       (prov_assets.filter
          (fun a => decide (a.size_in_bytes ≤ max_download_size))).map
        (fun a => a.name)) := by
  induction prov_assets with
  | nil => rfl
  | cons a rest ih =>
    by_cases hsize : max_download_size < a.size_in_bytes
    · have hf : decide (a.size_in_bytes ≤ max_download_size) = false := by
        simp [Nat.not_le.mpr hsize]
      simp [ci_download_loop, hsize, ih, List.filter_cons, hf]
    · have ht : decide (a.size_in_bytes ≤ max_download_size) = true := by
        simp [Nat.not_lt.mp hsize]
      by_cases hdl : a.downloadOk = false
      · simp [ci_download_loop, hsize, hdl, ih, List.filter_cons, ht]
      · cases hp : a.payload with
        | none => simp [ci_download_loop, hsize, hdl, hp, ih, List.filter_cons, ht]
        | some p => simp [ci_download_loop, hsize, hdl, hp, ih, List.filter_cons, ht]

/-- C3 (amended): the CI download path applies the same strict size
comparison as the registry path, but an asset whose declared size exceeds the
maximum is skipped for that one asset — not downloaded and contributing no
payload — and the function always returns normally instead of raising the
size-violation error. -/
theorem c3_ci_size_guard_skips (max_download_size : Nat)
    (prov_assets : List Asset) :
    download_provenances_from_github_actions_ci_service max_download_size
        prov_assets =
      .ok ((prov_assets.filter
              (fun a => decide (a.size_in_bytes ≤ max_download_size))).filterMap
             (fun a => if a.downloadOk then a.payload else none),
           (prov_assets.filter
              (fun a => decide (a.size_in_bytes ≤ max_download_size))).map
             (fun a => a.name)) := by
  unfold download_provenances_from_github_actions_ci_service
  rw [ci_download_loop_eq]

end Macaron
